import Mathlib

/-!
Shallow embedding of the float8_experimental core
(`float8_experimental/float8_tensor.py` and
`float8_experimental/float8_linear.py`) in Lean 4.

Modelling conventions:
* Tensor element values are rationals (`ℚ`); a tensor is its flattened
  element list together with a dtype tag.  Host-runtime dtype conversion
  (`torch.Tensor.to`) is value-preserving in the model (the spec treats
  the host tensor runtime as an external collaborator).
* In-place buffer mutation (`fill_`, `copy_`, indexed assignment) is made
  explicit: the mutated buffer is returned.
* Python `assert` failures and `raise` become `Except.error`.
* Helper functions that the repository imports from modules not present in
  the source tree (`float8_utils`, `config`, `float8_dynamic_utils`, an
  earlier revision of `float8_tensor`) are modelled from the spec; each
  such definition says so in its doc comment.
* `float8_linear.py` uses the prior spellings `GemmInputRole.X`,
  `GemmInputRole.W`, `GemmInputRole.DL_DY` for the roles named
  `INPUT`, `WEIGHT`, `GRAD_OUTPUT` by `float8_tensor.py`; the model uses
  the `float8_tensor.py` spellings throughout.
-/

set_option linter.unusedVariables false

/-- Floating-point dtypes that appear in the modelled code. -/
inductive Dtype where
  | float32
  | float16
  | bfloat16
  | float8_e4m3fn
  | float8_e5m2
  deriving DecidableEq, Repr

/-- Maximum representable finite magnitude of each dtype
(`torch.finfo(dtype).max`), as an exact rational. -/
def finfo_max : Dtype → ℚ
  | Dtype.float32 => (2 ^ 24 - 1) * 2 ^ 104
  | Dtype.float16 => 65504
  | Dtype.bfloat16 => 255 * 2 ^ 120
  | Dtype.float8_e4m3fn => 448
  | Dtype.float8_e5m2 => 57344

/-- Modelled from the spec: `float8_utils.e4m3_dtype` (module absent from
the source tree) — the default e4m3 target format. -/
def e4m3_dtype : Dtype := Dtype.float8_e4m3fn

/-- Modelled from the spec: `float8_utils.e5m2_dtype` (module absent from
the source tree) — the e5m2 target format used for gradients. -/
def e5m2_dtype : Dtype := Dtype.float8_e5m2

/-- A host tensor: flattened element values plus a dtype tag. -/
structure Tensor where
  data : List ℚ
  dtype : Dtype
  deriving DecidableEq, Repr

namespace Tensor

/-- `torch.Tensor.numel()`. -/
def numel (t : Tensor) : Nat := t.data.length

/-- `torch.Tensor.item()` of a buffer (value of its first element). -/
def item (t : Tensor) : ℚ := t.data.headD 0

/-- `torch.Tensor.to(dtype)`: dtype conversion performed by the host
runtime; value-preserving in the model (`to` is reserved in Lean, hence
the name `toDtype`). -/
def toDtype (t : Tensor) (d : Dtype) : Tensor := ⟨t.data, d⟩

/-- `t.fill_(v)` made explicit: every element becomes `v`. -/
def fill (t : Tensor) (v : ℚ) : Tensor := ⟨t.data.map (fun _ => v), t.dtype⟩

/-- `t[0] = v` made explicit. -/
def setHead (t : Tensor) (v : ℚ) : Tensor := ⟨t.data.set 0 v, t.dtype⟩

/-- `tensor * scale` where `scale` is a single-element tensor
(broadcast multiplication). -/
def mulScale (t s : Tensor) : Tensor :=
  ⟨t.data.map (fun v => v * s.item), t.dtype⟩

/-- `tensor / scale` where `scale` is a single-element tensor
(broadcast division). -/
def divScale (t s : Tensor) : Tensor :=
  ⟨t.data.map (fun v => v / s.item), t.dtype⟩

/-- Elementwise addition (`y + bias`). -/
def add (t u : Tensor) : Tensor :=
  ⟨List.zipWith (fun a b => a + b) t.data u.data, t.dtype⟩

/-- Maximum absolute value of the elements (0 for an empty tensor). -/
def absMax (t : Tensor) : ℚ := (t.data.map (fun v => |v|)).foldr max 0

end Tensor

/-- Modelled from the spec: `float8_utils.tensor_to_amax(x, reduce_amax)`
(module absent from the source tree) — returns the maximum absolute value
of `x`; when `reduce_amax` is set and a distributed group is active it is
additionally all-reduced with max across workers, which over the modelled
single-worker group is the local amax. -/
def tensor_to_amax (x : Tensor) (reduce_amax : Bool) : ℚ := x.absMax

/-- Modelled from the spec: `float8_utils.to_fp8_saturated(x, float8_dtype)`
(module absent from the source tree) — clamps values to the representable
range of the target format before narrowing, preventing
overflow-to-infinity/NaN; the narrowing/rounding itself is performed by the
host runtime and is modelled as the identity on the clamped value. -/
def to_fp8_saturated (x : Tensor) (float8_dtype : Dtype) : Tensor :=
  ⟨x.data.map (fun v => max (-(finfo_max float8_dtype)) (min v (finfo_max float8_dtype))),
   float8_dtype⟩

/-- Clamp floor used when turning an amax into a scale, so a zero amax does
not produce a division by zero. -/
def amax_eps : ℚ := 1 / 10 ^ 12

/-- Modelled from the spec: `float8_utils.amax_to_scale` (module absent
from the source tree) — derive a scale directly from one amax:
`finfo_max(float8_dtype) / amax`, with the amax clamped below by a small
epsilon. -/
def amax_to_scale (amax : ℚ) (float8_dtype : Dtype) (orig_dtype : Dtype) : ℚ :=
  finfo_max float8_dtype / max amax amax_eps

/-- Modelled from the spec: `float8_utils.amax_history_to_scale`
(module absent from the source tree) — derive a scale from an amax history
using the strategy selected by `scale_fn_name`: for "max", the maximum over
the recorded window; otherwise the most recent entry. -/
def amax_history_to_scale (amax_history : Tensor) (float8_dtype : Dtype)
    (orig_dtype : Dtype) (scale_fn_name : String) : ℚ :=
  let amax := if scale_fn_name = "max" then amax_history.data.foldr max 0
              else amax_history.item
  amax_to_scale amax float8_dtype orig_dtype

/-- `ScaledMMConfig` namedtuple: configuration of one scaled matmul. -/
structure ScaledMMConfig where
  emulate : Bool := false
  use_fast_accum : Bool := false
  fp8_output : Bool := false
  pad_inner_dim : Bool := false
  deriving DecidableEq, Repr

/-- `LinearMMConfig` namedtuple: the three `ScaledMMConfig`s of the three
gemms (`output`, `grad_input`, `grad_weight`) of a linear layer, with the
source defaults. -/
structure LinearMMConfig where
  output : ScaledMMConfig := ⟨false, true, false, false⟩
  grad_input : ScaledMMConfig := ⟨false, false, false, false⟩
  grad_weight : ScaledMMConfig := ⟨false, false, false, false⟩
  deriving DecidableEq, Repr

/-- `GemmInputRole` enum (the prior spellings `X`, `W`, `DL_DY` used by
`float8_linear.py` denote `INPUT`, `WEIGHT`, `GRAD_OUTPUT`). -/
inductive GemmInputRole where
  | INPUT
  | WEIGHT
  | GRAD_OUTPUT
  deriving DecidableEq, Repr

/-- `choose_scaled_mm_config`: select which of the three `ScaledMMConfig`s
applies to a gemm from the roles of its two operands; assert that the two
operands agree on that entry; any other role pairing raises. -/
def choose_scaled_mm_config (a_role : GemmInputRole)
    (a_linear_mm_config : LinearMMConfig) (b_role : GemmInputRole)
    (b_linear_mm_config : LinearMMConfig) : Except String ScaledMMConfig :=
  if a_role = GemmInputRole.INPUT ∧ b_role = GemmInputRole.WEIGHT then
    if a_linear_mm_config.output = b_linear_mm_config.output then
      Except.ok a_linear_mm_config.output
    else Except.error "linear_mm_config.output mismatch"
  else if a_role = GemmInputRole.GRAD_OUTPUT ∧ b_role = GemmInputRole.WEIGHT then
    if a_linear_mm_config.grad_input = b_linear_mm_config.grad_input then
      Except.ok a_linear_mm_config.grad_input
    else Except.error "linear_mm_config.grad_input mismatch"
  else if a_role = GemmInputRole.GRAD_OUTPUT ∧ b_role = GemmInputRole.INPUT then
    if a_linear_mm_config.grad_weight = b_linear_mm_config.grad_weight then
      Except.ok a_linear_mm_config.grad_weight
    else Except.error "linear_mm_config.grad_weight mismatch"
  else Except.error "unexpected a_role and b_role"

/-- `Float8Tensor`: 8-bit data, its scale, the original dtype, the layer's
`LinearMMConfig`, and the gemm role tag. -/
structure Float8Tensor where
  _data : Tensor
  _scale : Tensor
  _orig_dtype : Dtype
  _linear_mm_config : LinearMMConfig
  _gemm_input_role : GemmInputRole
  deriving DecidableEq, Repr

namespace Float8Tensor

/-- `Float8Tensor.__new__`: asserts the scale holds a single value, then
records data, scale, orig dtype, the mm config (defaulted when absent) and
the gemm role. -/
def new (data : Tensor) (scale : Tensor) (orig_dtype : Dtype)
    (linear_mm_config : Option LinearMMConfig)
    (gemm_input_role : GemmInputRole := GemmInputRole.INPUT) :
    Except String Float8Tensor :=
  if scale.numel = 1 then
    Except.ok ⟨data, scale, orig_dtype, linear_mm_config.getD {}, gemm_input_role⟩
  else
    Except.error "Scale should contain a single value"

end Float8Tensor

/-- `_ToFloat8ConstrFunc.forward` (the `DTensor` branch, an external
sharding wrapper, is out of the modelled scope): scale the tensor, convert
with saturation to the target 8-bit format, and build a `Float8Tensor`
carrying the input tensor's dtype as `orig_dtype`. -/
def ToFloat8ConstrFunc.forward (tensor : Tensor) (scale : Tensor)
    (float8_dtype : Dtype := e4m3_dtype)
    (linear_mm_config : Option LinearMMConfig := none)
    (gemm_input_role : GemmInputRole := GemmInputRole.INPUT) :
    Except String Float8Tensor :=
  let tensor_scaled := tensor.mulScale scale
  let bits_fp8 := to_fp8_saturated tensor_scaled float8_dtype
  Float8Tensor.new bits_fp8 scale tensor.dtype linear_mm_config gemm_input_role

/-- `_ToFloat8ConstrFunc.backward`: the gradient flows unchanged to the
`tensor` argument; every other returned gradient slot is `None` (the
source returns five `None`s after `g`). -/
def ToFloat8ConstrFunc.backward (g : Tensor) : Tensor × List (Option Tensor) :=
  (g, [none, none, none, none, none])

/-- `hp_tensor_and_scale_to_float8`: scale a high-precision tensor by a
precalculated scale and return the resulting `Float8Tensor`
(`_ToFloat8ConstrFunc.apply`). -/
def hp_tensor_and_scale_to_float8 (hp_tensor : Tensor) (s : Tensor)
    (float8_dtype : Dtype := e4m3_dtype)
    (linear_mm_config : Option LinearMMConfig := none)
    (gemm_input_role : GemmInputRole := GemmInputRole.INPUT) :
    Except String Float8Tensor :=
  ToFloat8ConstrFunc.forward hp_tensor s float8_dtype linear_mm_config
    gemm_input_role

/-- `_FromFloat8ConstrFunc.forward`: convert back to high precision as
`tensor._data.to(orig_dtype) / tensor._scale.to(orig_dtype)`. -/
def FromFloat8ConstrFunc.forward (tensor : Float8Tensor) : Tensor :=
  (tensor._data.toDtype tensor._orig_dtype).divScale
    (tensor._scale.toDtype tensor._orig_dtype)

/-- `_FromFloat8ConstrFunc.backward`: pass-through gradient, other slots
`None`. -/
def FromFloat8ConstrFunc.backward (g : Tensor) : Tensor × List (Option Tensor) :=
  (g, [none, none])

/-- `Float8Tensor.to_original_precision` (`_FromFloat8ConstrFunc.apply`). -/
def Float8Tensor.to_original_precision (t : Float8Tensor) : Tensor :=
  FromFloat8ConstrFunc.forward t

/-- Modelled from the spec: `to_fp8_no_autograd` (imported by
`float8_linear.py` from an earlier revision of `float8_tensor` absent from
the source tree) — `makeLowPrecision`: apply the scale, quantize with
saturation, and tag the result, without an autograd edge. -/
def to_fp8_no_autograd (x : Tensor) (x_scale : Tensor) (float8_dtype : Dtype)
    (linear_mm_config : Option LinearMMConfig)
    (gemm_input_role : GemmInputRole) : Except String Float8Tensor :=
  let x_scaled := x.mulScale x_scale
  let bits_fp8 := to_fp8_saturated x_scaled float8_dtype
  Float8Tensor.new bits_fp8 x_scale x.dtype linear_mm_config gemm_input_role

/-- The three per-role delayed-scaling buffers mutated in place by
`_maybe_initialize_amaxes_scales_for_float8_cast`: current amax, amax
history, current scale. -/
structure AmaxBuffers where
  cur_amax : Tensor
  amax_history : Tensor
  scale : Tensor
  deriving DecidableEq, Repr

/-- `_maybe_initialize_amaxes_scales_for_float8_cast`: no-op when already
initialized; otherwise compute the amax of `x` (reduced across workers when
requested), fill `cur_amax` with it, write it at index 0 of the history,
derive a scale from the updated history and copy it into the scale
buffer. -/
def maybe_initialize_amaxes_scales_for_float8_cast (x : Tensor)
    (bufs : AmaxBuffers) (scale_fn_name : String) (float8_dtype : Dtype)
    (is_initialized : Bool) (reduce_amax : Bool) : AmaxBuffers :=
  if is_initialized then bufs
  else
    let new_amax := tensor_to_amax x reduce_amax
    let cur_amax := bufs.cur_amax.fill new_amax
    let amax_history := bufs.amax_history.setHead new_amax
    let new_scale := amax_history_to_scale amax_history float8_dtype x.dtype
      scale_fn_name
    ⟨cur_amax, amax_history, bufs.scale.fill new_scale⟩

/-- The context saved by `NoopFwToFloat8E5M2Bw.forward` for its backward
(`ctx.save_for_backward` plus the non-tensor attributes). -/
structure NoopCtx where
  fp8_amax_grad_output : Tensor
  fp8_amax_history_grad_output : Tensor
  fp8_scale_grad_output : Tensor
  scale_fn_name : String
  is_amax_initialized : Bool
  linear_mm_config : LinearMMConfig
  deriving DecidableEq, Repr

/-- `NoopFwToFloat8E5M2Bw.forward`: save the grad-output buffers and flags
into the context and return the tensor unchanged. -/
def NoopFwToFloat8E5M2Bw.forward (tensor : Tensor)
    (fp8_amax_grad_output fp8_amax_history_grad_output fp8_scale_grad_output : Tensor)
    (scale_fn_name : String) (is_amax_initialized : Bool)
    (linear_mm_config : LinearMMConfig) : Tensor × NoopCtx :=
  (tensor,
   ⟨fp8_amax_grad_output, fp8_amax_history_grad_output, fp8_scale_grad_output,
    scale_fn_name, is_amax_initialized, linear_mm_config⟩)

/-- Result of `NoopFwToFloat8E5M2Bw.backward`: the updated grad-output
buffers (in-place mutation made explicit), the low-precision gradient
returned for the `tensor` input, and the `None` gradients for the six
remaining inputs. -/
structure NoopBwResult where
  bufs : AmaxBuffers
  res : Float8Tensor
  empty_grads : List (Option Tensor)
  deriving DecidableEq, Repr

/-- `NoopFwToFloat8E5M2Bw.backward`: run the initialization transition on
the saved grad-output buffers (reduce across workers) when the captured
flag says uninitialized, unconditionally fill the current-amax buffer with
this gradient's amax, cast the gradient to e5m2 with the scale buffer and
role `GRAD_OUTPUT` (spelled `DL_DY` in the source), and return it as the
gradient for `tensor` with `None` for all other inputs. -/
def NoopFwToFloat8E5M2Bw.backward (ctx : NoopCtx) (go : Tensor) :
    Except String NoopBwResult :=
  let bufs0 : AmaxBuffers :=
    ⟨ctx.fp8_amax_grad_output, ctx.fp8_amax_history_grad_output,
     ctx.fp8_scale_grad_output⟩
  let bufs1 := maybe_initialize_amaxes_scales_for_float8_cast go bufs0
    ctx.scale_fn_name e5m2_dtype ctx.is_amax_initialized true
  let bufs2 : AmaxBuffers :=
    ⟨bufs1.cur_amax.fill (tensor_to_amax go false), bufs1.amax_history,
     bufs1.scale⟩
  match to_fp8_no_autograd go bufs2.scale e5m2_dtype
      (some ctx.linear_mm_config) GemmInputRole.GRAD_OUTPUT with
  | Except.ok res =>
      Except.ok ⟨bufs2, res, [none, none, none, none, none, none]⟩
  | Except.error e => Except.error e

/-- `TensorScalingType` (from the `config` module absent from the source
tree): per-role choice between delayed and dynamic scaling. -/
inductive TensorScalingType where
  | DELAYED
  | DYNAMIC
  deriving DecidableEq, Repr

/-- Modelled from the spec: `Float8LinearConfig` (the `config` module is
absent from the source tree) — the construction-time configuration fields
that `float8_linear.py` reads: per-role scaling types, the delayed-scaling
history length and scale-derivation function name, the per-gemm matmul
behavior flags, padding, emulation, and the two enable flags for amax
initialization and the pre/post-forward hooks. -/
structure Float8LinearConfig where
  scaling_type_input : TensorScalingType := TensorScalingType.DYNAMIC
  scaling_type_weight : TensorScalingType := TensorScalingType.DYNAMIC
  scaling_type_grad_output : TensorScalingType := TensorScalingType.DYNAMIC
  emulate : Bool := false
  history_len : Nat := 16
  scale_fn_name : String := "max"
  use_fast_accum_output : Bool := false
  use_fast_accum_grad_input : Bool := false
  use_fast_accum_grad_weight : Bool := false
  pad_inner_dim : Bool := false
  enable_amax_init : Bool := true
  enable_pre_and_post_forward : Bool := true
  deriving DecidableEq, Repr

/-- The nine delayed-scaling buffers registered by
`Float8Linear.create_buffers` (float32, per
`register_always_float32_buffer`). -/
structure LayerBuffers where
  fp8_amax_input : Tensor
  fp8_amax_history_input : Tensor
  fp8_scale_input : Tensor
  fp8_amax_weight : Tensor
  fp8_amax_history_weight : Tensor
  fp8_scale_weight : Tensor
  fp8_amax_grad_output : Tensor
  fp8_amax_history_grad_output : Tensor
  fp8_scale_grad_output : Tensor
  deriving DecidableEq, Repr

/-- `Float8Linear`: the per-layer state that `float8_linear.py` keeps — the
weight (a high-precision tensor, or a `Float8Tensor` when pre-cast by
FSDP), optional bias, the per-role scaling types, the delayed-scaling
buffers (present only when some role uses delayed scaling), the layer's
`LinearMMConfig`, and the bookkeeping flags. -/
structure Float8Linear where
  weight : Tensor ⊕ Float8Tensor
  bias : Option Tensor
  scaling_type_input : TensorScalingType
  scaling_type_weight : TensorScalingType
  scaling_type_grad_output : TensorScalingType
  has_any_delayed_scaling : Bool
  config : Float8LinearConfig
  buffers : Option LayerBuffers
  linear_mm_config : LinearMMConfig
  is_amax_initialized : Bool
  amax_and_scale_synced : Bool
  last_seen_input_dtype : Option Dtype
  enable_pre_and_post_forward : Bool
  deriving DecidableEq, Repr

/-- `Float8Linear.create_buffers`: when any role uses delayed scaling,
allocate the nine buffers with default amax equal to the max representable
magnitude of the role's target format (e4m3 for input and weight, e5m2 for
grad output), zeroed histories of the configured length, and scales of
1.0; otherwise no buffers exist. -/
def create_buffers (config : Float8LinearConfig)
    (has_any_delayed_scaling : Bool) : Option LayerBuffers :=
  let history_len := config.history_len
  let default_input := finfo_max Dtype.float8_e4m3fn
  let default_weight := finfo_max Dtype.float8_e4m3fn
  let default_grad_output := finfo_max Dtype.float8_e5m2
  if has_any_delayed_scaling then
    some
      ⟨⟨[default_input], Dtype.float32⟩,
       ⟨List.replicate history_len 0, Dtype.float32⟩,
       ⟨[1], Dtype.float32⟩,
       ⟨[default_weight], Dtype.float32⟩,
       ⟨List.replicate history_len 0, Dtype.float32⟩,
       ⟨[1], Dtype.float32⟩,
       ⟨[default_grad_output], Dtype.float32⟩,
       ⟨List.replicate history_len 0, Dtype.float32⟩,
       ⟨[1], Dtype.float32⟩⟩
  else none

/-- `Float8Linear.__init__` (plus `create_buffers`): record the scaling
types, the convenience delayed-scaling flag, the buffers, the three-gemm
`LinearMMConfig` built from the config, and the initialization/sync
flags, both starting as the negation of `enable_amax_init`. -/
def Float8Linear.init (config : Float8LinearConfig)
    (weight : Tensor ⊕ Float8Tensor) (bias : Option Tensor) : Float8Linear :=
  let has_any_delayed_scaling :=
    config.scaling_type_input = TensorScalingType.DELAYED
    ∨ config.scaling_type_weight = TensorScalingType.DELAYED
    ∨ config.scaling_type_grad_output = TensorScalingType.DELAYED
  { weight := weight
    bias := bias
    scaling_type_input := config.scaling_type_input
    scaling_type_weight := config.scaling_type_weight
    scaling_type_grad_output := config.scaling_type_grad_output
    has_any_delayed_scaling := has_any_delayed_scaling
    config := config
    buffers := create_buffers config has_any_delayed_scaling
    linear_mm_config :=
      ⟨⟨config.emulate, config.use_fast_accum_output, false, config.pad_inner_dim⟩,
       ⟨config.emulate, config.use_fast_accum_grad_input, false, config.pad_inner_dim⟩,
       ⟨config.emulate, config.use_fast_accum_grad_weight, false, config.pad_inner_dim⟩⟩
    is_amax_initialized := !config.enable_amax_init
    amax_and_scale_synced := !config.enable_amax_init
    last_seen_input_dtype := none
    enable_pre_and_post_forward := config.enable_pre_and_post_forward }

/-- Host-runtime global modes read by `Float8Linear.forward`: whether
gradient tracking is active (`torch.is_grad_enabled`) and, when autocast
is enabled, the autocast dtype (`torch.get_autocast_gpu_dtype`). -/
structure HostCtx where
  grad_enabled : Bool
  autocast_gpu_dtype : Option Dtype
  deriving DecidableEq, Repr

/-- Modelled from the spec: `Float8Tensor.to_float8` with an amax buffer
(the revision of `float8_tensor` that `float8_linear.py` calls is absent
from the source tree) — record the instantaneous amax of the tensor into
the current-amax buffer, then cast with the given (history-derived) scale;
returns the filled amax buffer and the tagged tensor. -/
def Float8Tensor.to_float8 (x : Tensor) (scale : Tensor)
    (float8_dtype : Dtype) (amax_buffer : Tensor)
    (linear_mm_config : Option LinearMMConfig)
    (gemm_input_role : GemmInputRole) :
    Except String (Tensor × Float8Tensor) :=
  let amax_buffer := amax_buffer.fill (tensor_to_amax x false)
  match ToFloat8ConstrFunc.forward x scale float8_dtype linear_mm_config
      gemm_input_role with
  | Except.ok f8 => Except.ok (amax_buffer, f8)
  | Except.error e => Except.error e

/-- Modelled from the spec: `cast_to_float8_e4m3_dynamic` (the
`float8_dynamic_utils` module is absent from the source tree) — dynamic
scaling: derive the scale directly from the live tensor's amax (reduced
across workers) with no history, and cast immediately. -/
def cast_to_float8_e4m3_dynamic (x : Tensor)
    (linear_mm_config : LinearMMConfig)
    (gemm_input_role : GemmInputRole := GemmInputRole.INPUT) :
    Except String Float8Tensor :=
  let amax := tensor_to_amax x true
  let scale := amax_to_scale amax e4m3_dtype x.dtype
  hp_tensor_and_scale_to_float8 x ⟨[scale], Dtype.float32⟩ e4m3_dtype
    (some linear_mm_config) gemm_input_role

/-- `Float8Linear.cast_x_to_float8`: apply the autocast dtype when active;
delayed scaling runs the initialization transition on the input buffers
(reduce across workers) and casts with the buffered scale, recording the
input amax; dynamic scaling casts statelessly.  Returns the layer with
updated input buffers together with the tagged input. -/
def Float8Linear.cast_x_to_float8 (l : Float8Linear) (x : Tensor)
    (is_amax_initialized : Bool) (host : HostCtx) :
    Except String (Float8Linear × Float8Tensor) :=
  let x := match host.autocast_gpu_dtype with
    | some d => x.toDtype d
    | none => x
  match l.scaling_type_input with
  | TensorScalingType.DELAYED =>
    match l.buffers with
    | none => Except.error "delayed scaling buffers not created"
    | some b =>
      let scale_fn_name := l.config.scale_fn_name
      let bufs := maybe_initialize_amaxes_scales_for_float8_cast x
        ⟨b.fp8_amax_input, b.fp8_amax_history_input, b.fp8_scale_input⟩
        scale_fn_name e4m3_dtype is_amax_initialized true
      match Float8Tensor.to_float8 x bufs.scale e4m3_dtype bufs.cur_amax
          (some l.linear_mm_config) GemmInputRole.INPUT with
      | Except.ok (amax_buf, x_fp8) =>
        Except.ok
          ({ l with buffers := some { b with
              fp8_amax_input := amax_buf,
              fp8_amax_history_input := bufs.amax_history,
              fp8_scale_input := bufs.scale } }, x_fp8)
      | Except.error e => Except.error e
  | TensorScalingType.DYNAMIC =>
    match cast_to_float8_e4m3_dynamic x l.linear_mm_config with
    | Except.ok x_fp8 => Except.ok (l, x_fp8)
    | Except.error e => Except.error e

/-- `Float8Linear.cast_w_to_float8`: if the layer's weight is already a
`Float8Tensor` (cast by FSDP) return it as-is; otherwise under delayed
scaling run the initialization transition on the weight buffers (no
cross-worker reduction) and cast with the buffered scale, and under
dynamic scaling cast the weight statelessly. -/
def Float8Linear.cast_w_to_float8 (l : Float8Linear) (w : Tensor ⊕ Float8Tensor)
    (is_amax_initialized : Bool) :
    Except String (Float8Linear × Float8Tensor) :=
  match l.scaling_type_weight with
  | TensorScalingType.DELAYED =>
    match l.weight with
    | Sum.inr w_fp8 => Except.ok (l, w_fp8)
    | Sum.inl _ =>
      match w with
      | Sum.inr _ =>
        Except.error "weight argument already cast but self.weight is not"
      | Sum.inl w_hp =>
        match l.buffers with
        | none => Except.error "delayed scaling buffers not created"
        | some b =>
          let scale_fn_name := l.config.scale_fn_name
          let bufs := maybe_initialize_amaxes_scales_for_float8_cast w_hp
            ⟨b.fp8_amax_weight, b.fp8_amax_history_weight, b.fp8_scale_weight⟩
            scale_fn_name e4m3_dtype is_amax_initialized false
          match Float8Tensor.to_float8 w_hp bufs.scale e4m3_dtype bufs.cur_amax
              (some l.linear_mm_config) GemmInputRole.WEIGHT with
          | Except.ok (amax_buf, w_fp8) =>
            Except.ok
              ({ l with buffers := some { b with
                  fp8_amax_weight := amax_buf,
                  fp8_amax_history_weight := bufs.amax_history,
                  fp8_scale_weight := bufs.scale } }, w_fp8)
          | Except.error e => Except.error e
  | TensorScalingType.DYNAMIC =>
    match l.weight with
    | Sum.inr w_fp8 => Except.ok (l, w_fp8)
    | Sum.inl w_hp =>
      match cast_to_float8_e4m3_dynamic w_hp l.linear_mm_config
          GemmInputRole.WEIGHT with
      | Except.ok w_fp8 => Except.ok (l, w_fp8)
      | Except.error e => Except.error e

/-- `Float8Linear.cast_y_to_float8_in_bw` (forward-pass value): under
delayed scaling, `NoopFwToFloat8E5M2Bw.apply` returns `y` unchanged in the
forward pass (the cast happens in backward, see
`NoopFwToFloat8E5M2Bw.backward`); under dynamic scaling the dynamic
grad-output op likewise has an identity forward. -/
def Float8Linear.cast_y_to_float8_in_bw (l : Float8Linear) (y : Tensor) : Tensor :=
  match l.scaling_type_grad_output with
  | TensorScalingType.DELAYED =>
    match l.buffers with
    | some b =>
      (NoopFwToFloat8E5M2Bw.forward y b.fp8_amax_grad_output
        b.fp8_amax_history_grad_output b.fp8_scale_grad_output
        l.config.scale_fn_name l.is_amax_initialized l.linear_mm_config).1
    | none => y
  | TensorScalingType.DYNAMIC => y

/-- Modelled from the spec: the float8 matmul dispatched through the host
runtime on two tagged tensors — any binary operator between two tagged
tensors must resolve a single applicable `ScaledMMConfig` via role-pair
lookup and fail fast otherwise; the 8-bit gemm kernel itself is an opaque
external routine (out of the spec's scope) taken as the parameter `mm`
acting on the operands restored to high precision. -/
def float8_mm (mm : Tensor → Tensor → Tensor) (a b : Float8Tensor) :
    Except String Tensor :=
  match choose_scaled_mm_config a._gemm_input_role a._linear_mm_config
      b._gemm_input_role b._linear_mm_config with
  | Except.ok _ => Except.ok (mm a.to_original_precision b.to_original_precision)
  | Except.error e => Except.error e

/-- `Float8Tensor.t()` (transpose): host-runtime data movement; the
flattened element values and all float8 metadata (scale, orig dtype,
config, role) are preserved, so over the unshaped model it is the
identity. -/
def Float8Tensor.t (a : Float8Tensor) : Float8Tensor := a

/-- `Float8Linear.float8_pre_forward`: no-op when the pre/post-forward
hooks are disabled; otherwise raise when the amaxes are initialized but
not synced while gradient tracking is active, and record the input
dtype. -/
def Float8Linear.float8_pre_forward (l : Float8Linear) (x : Tensor)
    (host : HostCtx) : Except String Float8Linear :=
  if !l.enable_pre_and_post_forward then Except.ok l
  else if l.is_amax_initialized ∧ ¬l.amax_and_scale_synced ∧ host.grad_enabled then
    Except.error
      "amaxes and scales not synced, please call sync_float8_amax_and_scale_history before forward"
  else Except.ok { l with last_seen_input_dtype := some x.dtype }

/-- `Float8Linear.float8_post_forward`: no-op when the hooks are disabled;
otherwise mark the amaxes initialized and clear the synced flag so that
calling forward again without a sync fails. -/
def Float8Linear.float8_post_forward (l : Float8Linear) : Float8Linear :=
  if !l.enable_pre_and_post_forward then l
  else { l with is_amax_initialized := true, amax_and_scale_synced := false }

/-- `Float8Linear.forward`: pre-forward check (only when some role uses
delayed scaling), cast input and weight to float8, the output gemm, the
backward-only grad-output cast, optional bias, post-forward flag update. -/
def Float8Linear.forward (mm : Tensor → Tensor → Tensor) (host : HostCtx)
    (l : Float8Linear) (input : Tensor) :
    Except String (Float8Linear × Tensor) := do
  let l ←
    if l.has_any_delayed_scaling then l.float8_pre_forward input host
    else Except.ok l
  let (l, x_fp8) ← l.cast_x_to_float8 input l.is_amax_initialized host
  let (l, w_fp8) ← l.cast_w_to_float8 l.weight l.is_amax_initialized
  let y ← float8_mm mm x_fp8 w_fp8.t
  let y := l.cast_y_to_float8_in_bw y
  let y := match l.bias with
    | some bias => y.add (bias.toDtype y.dtype)
    | none => y
  let l := if l.has_any_delayed_scaling then l.float8_post_forward else l
  Except.ok (l, y)

/-- Initialization preserves the element count of the scale buffer. -/
theorem maybe_initialize_scale_numel (x : Tensor) (bufs : AmaxBuffers)
    (scale_fn_name : String) (float8_dtype : Dtype) (is_initialized : Bool)
    (reduce_amax : Bool) :
    (maybe_initialize_amaxes_scales_for_float8_cast x bufs scale_fn_name
      float8_dtype is_initialized reduce_amax).scale.numel = bufs.scale.numel := by
  unfold maybe_initialize_amaxes_scales_for_float8_cast
  cases is_initialized <;> simp [Tensor.fill, Tensor.numel]

/-- C5: invoking the initialization transition on an already-initialized
scale/amax state (is_initialized true) is a no-op: the current_amax,
amax_history and scale buffers are returned completely unchanged. -/
theorem maybe_initialize_noop_when_initialized (x : Tensor)
    (bufs : AmaxBuffers) (scale_fn_name : String) (float8_dtype : Dtype)
    (reduce_amax : Bool) :
    maybe_initialize_amaxes_scales_for_float8_cast x bufs scale_fn_name
      float8_dtype true reduce_amax = bufs := by
  unfold maybe_initialize_amaxes_scales_for_float8_cast
  simp

/-- C3: role-pair resolution — (INPUT, WEIGHT), (GRAD_OUTPUT, WEIGHT) and
(GRAD_OUTPUT, INPUT) select the `output`, `grad_input` and `grad_weight`
`ScaledMMConfig` respectively (when the two operands agree on that entry),
and each of the six other ordered role pairs fails fast with an error. -/
theorem choose_scaled_mm_config_role_pairs (ca cb : LinearMMConfig) :
    (ca.output = cb.output →
      choose_scaled_mm_config GemmInputRole.INPUT ca GemmInputRole.WEIGHT cb =
        Except.ok ca.output) ∧
    (ca.grad_input = cb.grad_input →
      choose_scaled_mm_config GemmInputRole.GRAD_OUTPUT ca GemmInputRole.WEIGHT cb =
        Except.ok ca.grad_input) ∧
    (ca.grad_weight = cb.grad_weight →
      choose_scaled_mm_config GemmInputRole.GRAD_OUTPUT ca GemmInputRole.INPUT cb =
        Except.ok ca.grad_weight) ∧
    choose_scaled_mm_config GemmInputRole.INPUT ca GemmInputRole.INPUT cb =
      Except.error "unexpected a_role and b_role" ∧
    choose_scaled_mm_config GemmInputRole.INPUT ca GemmInputRole.GRAD_OUTPUT cb =
      Except.error "unexpected a_role and b_role" ∧
    choose_scaled_mm_config GemmInputRole.WEIGHT ca GemmInputRole.INPUT cb =
      Except.error "unexpected a_role and b_role" ∧
    choose_scaled_mm_config GemmInputRole.WEIGHT ca GemmInputRole.WEIGHT cb =
      Except.error "unexpected a_role and b_role" ∧
    choose_scaled_mm_config GemmInputRole.WEIGHT ca GemmInputRole.GRAD_OUTPUT cb =
      Except.error "unexpected a_role and b_role" ∧
    choose_scaled_mm_config GemmInputRole.GRAD_OUTPUT ca GemmInputRole.GRAD_OUTPUT cb =
      Except.error "unexpected a_role and b_role" := by
  refine ⟨?_, ?_, ?_, ?_, ?_, ?_, ?_, ?_, ?_⟩ <;>
    first
    | (intro h; simp [choose_scaled_mm_config, h])
    | simp [choose_scaled_mm_config]

/-- Closed witness for the hypotheses of
`choose_scaled_mm_config_role_pairs`, at two equal default configs. -/
theorem choose_scaled_mm_config_role_pairs_witness :
    choose_scaled_mm_config GemmInputRole.INPUT {} GemmInputRole.WEIGHT {} =
      Except.ok (LinearMMConfig.output {}) :=
  (choose_scaled_mm_config_role_pairs {} {}).1 rfl

/-- C6: when the two operands' `LinearMMConfig` entries for the gemm
selected by their roles differ, resolution fails fast with an error naming
the mismatched entry; when they agree, the shared entry is returned. -/
theorem choose_scaled_mm_config_mismatch_fail_fast (ca cb : LinearMMConfig) :
    (ca.output ≠ cb.output →
      choose_scaled_mm_config GemmInputRole.INPUT ca GemmInputRole.WEIGHT cb =
        Except.error "linear_mm_config.output mismatch") ∧
    (ca.output = cb.output →
      choose_scaled_mm_config GemmInputRole.INPUT ca GemmInputRole.WEIGHT cb =
        Except.ok ca.output) ∧
    (ca.grad_input ≠ cb.grad_input →
      choose_scaled_mm_config GemmInputRole.GRAD_OUTPUT ca GemmInputRole.WEIGHT cb =
        Except.error "linear_mm_config.grad_input mismatch") ∧
    (ca.grad_input = cb.grad_input →
      choose_scaled_mm_config GemmInputRole.GRAD_OUTPUT ca GemmInputRole.WEIGHT cb =
        Except.ok ca.grad_input) ∧
    (ca.grad_weight ≠ cb.grad_weight →
      choose_scaled_mm_config GemmInputRole.GRAD_OUTPUT ca GemmInputRole.INPUT cb =
        Except.error "linear_mm_config.grad_weight mismatch") ∧
    (ca.grad_weight = cb.grad_weight →
      choose_scaled_mm_config GemmInputRole.GRAD_OUTPUT ca GemmInputRole.INPUT cb =
        Except.ok ca.grad_weight) := by
  refine ⟨?_, ?_, ?_, ?_, ?_, ?_⟩ <;>
    (intro h; simp [choose_scaled_mm_config, h])

/-- Closed witness for the hypotheses of
`choose_scaled_mm_config_mismatch_fail_fast`: two configs whose `output`
entries differ make the output-gemm resolution fail. -/
theorem choose_scaled_mm_config_mismatch_witness :
    choose_scaled_mm_config GemmInputRole.INPUT
        ⟨⟨true, false, false, false⟩, {}, {}⟩ GemmInputRole.WEIGHT
        ⟨⟨false, false, false, false⟩, {}, {}⟩ =
      Except.error "linear_mm_config.output mismatch" :=
  (choose_scaled_mm_config_mismatch_fail_fast
    ⟨⟨true, false, false, false⟩, {}, {}⟩
    ⟨⟨false, false, false, false⟩, {}, {}⟩).1 (by decide)

/-- C7: the scale-singleton invariant — constructing a `Float8Tensor` with
a scale whose element count is not 1 fails immediately with the
constructor's error, and every `Float8Tensor` produced by the constructor
or by the casting operations satisfies `scale.numel = 1`. -/
theorem float8Tensor_scale_singleton_invariant :
    (∀ (data scale : Tensor) (orig_dtype : Dtype)
      (cfg : Option LinearMMConfig) (role : GemmInputRole),
      scale.numel ≠ 1 →
      Float8Tensor.new data scale orig_dtype cfg role =
        Except.error "Scale should contain a single value") ∧
    (∀ (data scale : Tensor) (orig_dtype : Dtype)
      (cfg : Option LinearMMConfig) (role : GemmInputRole) (t : Float8Tensor),
      Float8Tensor.new data scale orig_dtype cfg role = Except.ok t →
      t._scale.numel = 1) ∧
    (∀ (tensor scale : Tensor) (float8_dtype : Dtype)
      (cfg : Option LinearMMConfig) (role : GemmInputRole) (t : Float8Tensor),
      ToFloat8ConstrFunc.forward tensor scale float8_dtype cfg role =
        Except.ok t →
      t._scale.numel = 1) ∧
    (∀ (x x_scale : Tensor) (float8_dtype : Dtype)
      (cfg : Option LinearMMConfig) (role : GemmInputRole) (t : Float8Tensor),
      to_fp8_no_autograd x x_scale float8_dtype cfg role = Except.ok t →
      t._scale.numel = 1) := by
  have hnew : ∀ (data scale : Tensor) (orig_dtype : Dtype)
      (cfg : Option LinearMMConfig) (role : GemmInputRole) (t : Float8Tensor),
      Float8Tensor.new data scale orig_dtype cfg role = Except.ok t →
      t._scale.numel = 1 := by
    intro data scale orig_dtype cfg role t h
    unfold Float8Tensor.new at h
    split at h
    · cases h
      assumption
    · cases h
  refine ⟨?_, hnew, ?_, ?_⟩
  · intro data scale orig_dtype cfg role h
    unfold Float8Tensor.new
    simp [h]
  · intro tensor scale float8_dtype cfg role t h
    exact hnew _ _ _ _ _ _ h
  · intro x x_scale float8_dtype cfg role t h
    exact hnew _ _ _ _ _ _ h

/-- Closed witness for `float8Tensor_scale_singleton_invariant`: a
two-element scale is rejected by the constructor. -/
theorem float8Tensor_scale_singleton_witness :
    Float8Tensor.new ⟨[1], Dtype.float8_e4m3fn⟩ ⟨[1, 2], Dtype.float32⟩
        Dtype.float32 none GemmInputRole.INPUT =
      Except.error "Scale should contain a single value" :=
  float8Tensor_scale_singleton_invariant.1 ⟨[1], Dtype.float8_e4m3fn⟩
    ⟨[1, 2], Dtype.float32⟩ Dtype.float32 none GemmInputRole.INPUT (by decide)

/-- C8: conversion back to high precision returns exactly the stored data
converted to `orig_dtype`, divided elementwise by the scale converted to
`orig_dtype` — exact given the stored 8-bit data. -/
theorem to_original_precision_spec (t : Float8Tensor) :
    t.to_original_precision =
      (t._data.toDtype t._orig_dtype).divScale (t._scale.toDtype t._orig_dtype) ∧
    (t.to_original_precision).data =
      t._data.data.map (fun v => v / t._scale.item) ∧
    (t.to_original_precision).dtype = t._orig_dtype := by
  refine ⟨rfl, ?_, rfl⟩
  simp [Float8Tensor.to_original_precision, FromFloat8ConstrFunc.forward,
    Tensor.divScale, Tensor.toDtype, Tensor.item]

/-- C4: the forward cast (`_ToFloat8ConstrFunc`) first multiplies the
tensor by the scale and then applies saturated quantization to the target
8-bit format; the returned tagged tensor carries `orig_dtype` equal to the
input tensor's dtype; its backward passes the incoming gradient unchanged
to the tensor argument and returns `None` for every other gradient slot
(so the scale, format, config and role arguments receive no gradient). -/
theorem toFloat8ConstrFunc_cast_spec (tensor scale : Tensor)
    (float8_dtype : Dtype) (cfg : Option LinearMMConfig)
    (role : GemmInputRole) (h : scale.numel = 1) :
    (∃ f8, ToFloat8ConstrFunc.forward tensor scale float8_dtype cfg role =
        Except.ok f8 ∧
      f8._data = to_fp8_saturated (tensor.mulScale scale) float8_dtype ∧
      f8._scale = scale ∧
      f8._orig_dtype = tensor.dtype ∧
      f8._gemm_input_role = role) ∧
    (∀ g : Tensor, ToFloat8ConstrFunc.backward g =
      (g, [none, none, none, none, none])) := by
  constructor
  · refine ⟨⟨to_fp8_saturated (tensor.mulScale scale) float8_dtype, scale,
      tensor.dtype, cfg.getD {}, role⟩, ?_, rfl, rfl, rfl, rfl⟩
    unfold ToFloat8ConstrFunc.forward Float8Tensor.new
    simp [h]
  · intro g
    rfl

/-- Closed witness for `toFloat8ConstrFunc_cast_spec`: a concrete cast of
a one-element float32 tensor with a single-element scale. -/
theorem toFloat8ConstrFunc_cast_witness :
    ∃ f8, ToFloat8ConstrFunc.forward ⟨[3], Dtype.float32⟩
        ⟨[2], Dtype.float32⟩ e4m3_dtype none GemmInputRole.INPUT =
        Except.ok f8 ∧
      f8._data = to_fp8_saturated
        ((⟨[3], Dtype.float32⟩ : Tensor).mulScale ⟨[2], Dtype.float32⟩)
        e4m3_dtype ∧
      f8._scale = (⟨[2], Dtype.float32⟩ : Tensor) ∧
      f8._orig_dtype = Dtype.float32 ∧
      f8._gemm_input_role = GemmInputRole.INPUT :=
  (toFloat8ConstrFunc_cast_spec ⟨[3], Dtype.float32⟩ ⟨[2], Dtype.float32⟩
    e4m3_dtype none GemmInputRole.INPUT (by decide)).1

/-- C9: a `Float8Linear` constructed with delayed scaling on at least one
role gets its amax buffers initialized to the maximum representable
magnitude of each role's target 8-bit format (e4m3 for input and weight,
e5m2 for grad-output) and its scale buffers initialized to 1.0. -/
theorem create_buffers_defaults (config : Float8LinearConfig)
    (w : Tensor ⊕ Float8Tensor) (bias : Option Tensor)
    (h : config.scaling_type_input = TensorScalingType.DELAYED
      ∨ config.scaling_type_weight = TensorScalingType.DELAYED
      ∨ config.scaling_type_grad_output = TensorScalingType.DELAYED) :
    ∃ b, (Float8Linear.init config w bias).buffers = some b ∧
      b.fp8_amax_input = ⟨[finfo_max Dtype.float8_e4m3fn], Dtype.float32⟩ ∧
      b.fp8_amax_weight = ⟨[finfo_max Dtype.float8_e4m3fn], Dtype.float32⟩ ∧
      b.fp8_amax_grad_output = ⟨[finfo_max Dtype.float8_e5m2], Dtype.float32⟩ ∧
      b.fp8_scale_input = ⟨[1], Dtype.float32⟩ ∧
      b.fp8_scale_weight = ⟨[1], Dtype.float32⟩ ∧
      b.fp8_scale_grad_output = ⟨[1], Dtype.float32⟩ := by
  have hd : decide (config.scaling_type_input = TensorScalingType.DELAYED
      ∨ config.scaling_type_weight = TensorScalingType.DELAYED
      ∨ config.scaling_type_grad_output = TensorScalingType.DELAYED) = true :=
    decide_eq_true h
  refine ⟨⟨⟨[finfo_max Dtype.float8_e4m3fn], Dtype.float32⟩,
    ⟨List.replicate config.history_len 0, Dtype.float32⟩,
    ⟨[1], Dtype.float32⟩,
    ⟨[finfo_max Dtype.float8_e4m3fn], Dtype.float32⟩,
    ⟨List.replicate config.history_len 0, Dtype.float32⟩,
    ⟨[1], Dtype.float32⟩,
    ⟨[finfo_max Dtype.float8_e5m2], Dtype.float32⟩,
    ⟨List.replicate config.history_len 0, Dtype.float32⟩,
    ⟨[1], Dtype.float32⟩⟩, ?_, rfl, rfl, rfl, rfl, rfl, rfl⟩
  unfold Float8Linear.init create_buffers
  simp [hd]

/-- Closed witness for `create_buffers_defaults`: a config with delayed
scaling on the input role. -/
theorem create_buffers_defaults_witness :
    ∃ b, (Float8Linear.init
        { scaling_type_input := TensorScalingType.DELAYED }
        (Sum.inl ⟨[1], Dtype.float32⟩) none).buffers = some b ∧
      b.fp8_amax_input = ⟨[finfo_max Dtype.float8_e4m3fn], Dtype.float32⟩ ∧
      b.fp8_amax_weight = ⟨[finfo_max Dtype.float8_e4m3fn], Dtype.float32⟩ ∧
      b.fp8_amax_grad_output = ⟨[finfo_max Dtype.float8_e5m2], Dtype.float32⟩ ∧
      b.fp8_scale_input = ⟨[1], Dtype.float32⟩ ∧
      b.fp8_scale_weight = ⟨[1], Dtype.float32⟩ ∧
      b.fp8_scale_grad_output = ⟨[1], Dtype.float32⟩ :=
  create_buffers_defaults { scaling_type_input := TensorScalingType.DELAYED }
    (Sum.inl ⟨[1], Dtype.float32⟩) none (Or.inl rfl)

/-- C10: when the layer's weight is already a `Float8Tensor` (pre-cast by
FSDP), the weight cast returns it as-is under both delayed and dynamic
weight scaling, with the layer state (in particular the weight scale/amax
buffers) completely untouched. -/
theorem cast_w_already_cast_noop (l : Float8Linear) (w_fp8 : Float8Tensor)
    (is_amax_initialized : Bool) (h : l.weight = Sum.inr w_fp8) :
    l.cast_w_to_float8 l.weight is_amax_initialized = Except.ok (l, w_fp8) := by
  cases hsw : l.scaling_type_weight <;>
    simp [Float8Linear.cast_w_to_float8, hsw, h]

/-- Closed witness for `cast_w_already_cast_noop`: a layer whose weight is
a pre-cast `Float8Tensor`. -/
theorem cast_w_already_cast_witness :
    (Float8Linear.init {}
        (Sum.inr ⟨⟨[1], Dtype.float8_e4m3fn⟩, ⟨[1], Dtype.float32⟩,
          Dtype.float32, {}, GemmInputRole.WEIGHT⟩) none).cast_w_to_float8
      (Float8Linear.init {}
        (Sum.inr ⟨⟨[1], Dtype.float8_e4m3fn⟩, ⟨[1], Dtype.float32⟩,
          Dtype.float32, {}, GemmInputRole.WEIGHT⟩) none).weight false =
    Except.ok
      (Float8Linear.init {}
        (Sum.inr ⟨⟨[1], Dtype.float8_e4m3fn⟩, ⟨[1], Dtype.float32⟩,
          Dtype.float32, {}, GemmInputRole.WEIGHT⟩) none,
       ⟨⟨[1], Dtype.float8_e4m3fn⟩, ⟨[1], Dtype.float32⟩, Dtype.float32,
        {}, GemmInputRole.WEIGHT⟩) :=
  cast_w_already_cast_noop _ _ false rfl

/-- C1: the delayed-scaling grad-output boundary operation
(`NoopFwToFloat8E5M2Bw`): forward returns the tensor unchanged; backward
(1) runs the initialization transition with cross-worker reduction enabled
(a no-op when the captured flag says already initialized, so the scale used
is then the prior step's), (2) unconditionally fills the current-amax
buffer with the gradient's amax, (3) casts the gradient to a tagged e5m2
tensor with role `GRAD_OUTPUT` using the value held in the scale buffer,
and (4) returns that tagged tensor as the gradient for the tensor input
with `None` for every other input. -/
theorem noopFwToFloat8E5M2Bw_spec (tensor : Tensor)
    (fp8_amax_grad_output fp8_amax_history_grad_output fp8_scale_grad_output : Tensor)
    (scale_fn_name : String) (is_amax_initialized : Bool)
    (linear_mm_config : LinearMMConfig) (go : Tensor)
    (h : fp8_scale_grad_output.numel = 1) :
    (NoopFwToFloat8E5M2Bw.forward tensor fp8_amax_grad_output
      fp8_amax_history_grad_output fp8_scale_grad_output scale_fn_name
      is_amax_initialized linear_mm_config).1 = tensor ∧
    (let bufs1 := maybe_initialize_amaxes_scales_for_float8_cast go
      ⟨fp8_amax_grad_output, fp8_amax_history_grad_output, fp8_scale_grad_output⟩
      scale_fn_name e5m2_dtype is_amax_initialized true
     ∃ r, NoopFwToFloat8E5M2Bw.backward
        (NoopFwToFloat8E5M2Bw.forward tensor fp8_amax_grad_output
          fp8_amax_history_grad_output fp8_scale_grad_output scale_fn_name
          is_amax_initialized linear_mm_config).2 go = Except.ok r ∧
      r.bufs.cur_amax = bufs1.cur_amax.fill (tensor_to_amax go false) ∧
      r.bufs.amax_history = bufs1.amax_history ∧
      r.bufs.scale = bufs1.scale ∧
      r.res._data = to_fp8_saturated (go.mulScale bufs1.scale) e5m2_dtype ∧
      r.res._scale = bufs1.scale ∧
      r.res._orig_dtype = go.dtype ∧
      r.res._gemm_input_role = GemmInputRole.GRAD_OUTPUT ∧
      r.res._linear_mm_config = linear_mm_config ∧
      r.empty_grads = [none, none, none, none, none, none]) := by
  constructor
  · rfl
  · intro bufs1
    have hs : bufs1.scale.numel = 1 := by
      have := maybe_initialize_scale_numel go
        ⟨fp8_amax_grad_output, fp8_amax_history_grad_output, fp8_scale_grad_output⟩
        scale_fn_name e5m2_dtype is_amax_initialized true
      simpa [bufs1, this] using h
    refine ⟨⟨⟨bufs1.cur_amax.fill (tensor_to_amax go false), bufs1.amax_history,
        bufs1.scale⟩,
      ⟨to_fp8_saturated (go.mulScale bufs1.scale) e5m2_dtype, bufs1.scale,
        go.dtype, linear_mm_config, GemmInputRole.GRAD_OUTPUT⟩,
      [none, none, none, none, none, none]⟩,
      ?_, rfl, rfl, rfl, rfl, rfl, rfl, rfl, rfl, rfl⟩
    unfold NoopFwToFloat8E5M2Bw.backward NoopFwToFloat8E5M2Bw.forward
      to_fp8_no_autograd Float8Tensor.new
    simp only [bufs1]
    simp [hs]

/-- Closed witness for `noopFwToFloat8E5M2Bw_spec`: concrete buffers with
a single-element scale, an uninitialized state, and a concrete incoming
gradient. -/
theorem noopFwToFloat8E5M2Bw_spec_witness :
    (NoopFwToFloat8E5M2Bw.forward ⟨[5], Dtype.float32⟩
      ⟨[57344], Dtype.float32⟩ ⟨[0, 0], Dtype.float32⟩ ⟨[1], Dtype.float32⟩
      "max" false {}).1 = ⟨[5], Dtype.float32⟩ ∧
    (let bufs1 := maybe_initialize_amaxes_scales_for_float8_cast
      ⟨[2], Dtype.float32⟩
      ⟨⟨[57344], Dtype.float32⟩, ⟨[0, 0], Dtype.float32⟩, ⟨[1], Dtype.float32⟩⟩
      "max" e5m2_dtype false true
     ∃ r, NoopFwToFloat8E5M2Bw.backward
        (NoopFwToFloat8E5M2Bw.forward ⟨[5], Dtype.float32⟩
          ⟨[57344], Dtype.float32⟩ ⟨[0, 0], Dtype.float32⟩
          ⟨[1], Dtype.float32⟩ "max" false {}).2 ⟨[2], Dtype.float32⟩ =
        Except.ok r ∧
      r.bufs.cur_amax = bufs1.cur_amax.fill
        (tensor_to_amax ⟨[2], Dtype.float32⟩ false) ∧
      r.bufs.amax_history = bufs1.amax_history ∧
      r.bufs.scale = bufs1.scale ∧
      r.res._data = to_fp8_saturated
        ((⟨[2], Dtype.float32⟩ : Tensor).mulScale bufs1.scale) e5m2_dtype ∧
      r.res._scale = bufs1.scale ∧
      r.res._orig_dtype = Dtype.float32 ∧
      r.res._gemm_input_role = GemmInputRole.GRAD_OUTPUT ∧
      r.res._linear_mm_config = {} ∧
      r.empty_grads = [none, none, none, none, none, none]) :=
  noopFwToFloat8E5M2Bw_spec ⟨[5], Dtype.float32⟩ ⟨[57344], Dtype.float32⟩
    ⟨[0, 0], Dtype.float32⟩ ⟨[1], Dtype.float32⟩ "max" false {}
    ⟨[2], Dtype.float32⟩ (by decide)

/-- Evaluation of the modelled `Float8Tensor.to_float8` when the scale is
a single-element buffer. -/
theorem to_float8_ok (x scale : Tensor) (float8_dtype : Dtype)
    (amax_buffer : Tensor) (cfg : LinearMMConfig) (role : GemmInputRole)
    (hs : scale.numel = 1) :
    Float8Tensor.to_float8 x scale float8_dtype amax_buffer (some cfg) role =
      Except.ok (amax_buffer.fill (tensor_to_amax x false),
        ⟨to_fp8_saturated (x.mulScale scale) float8_dtype, scale, x.dtype,
          cfg, role⟩) := by
  unfold Float8Tensor.to_float8 ToFloat8ConstrFunc.forward Float8Tensor.new
  simp [hs]

/-- Evaluation of the modelled dynamic e4m3 cast: it always succeeds, with
a freshly derived single-element scale. -/
theorem cast_dynamic_ok (x : Tensor) (cfg : LinearMMConfig)
    (role : GemmInputRole) :
    cast_to_float8_e4m3_dynamic x cfg role =
      Except.ok
        ⟨to_fp8_saturated
            (x.mulScale ⟨[amax_to_scale (tensor_to_amax x true) e4m3_dtype
              x.dtype], Dtype.float32⟩) e4m3_dtype,
          ⟨[amax_to_scale (tensor_to_amax x true) e4m3_dtype x.dtype],
            Dtype.float32⟩, x.dtype, cfg, role⟩ := by
  unfold cast_to_float8_e4m3_dynamic hp_tensor_and_scale_to_float8
    ToFloat8ConstrFunc.forward Float8Tensor.new
  simp [Tensor.numel]

/-- The output-gemm role pair with one shared config resolves to that
config's `output` entry. -/
theorem choose_same_input_weight (c : LinearMMConfig) :
    choose_scaled_mm_config GemmInputRole.INPUT c GemmInputRole.WEIGHT c =
      Except.ok c.output := by
  simp [choose_scaled_mm_config]

/-- The forward-pass value of the grad-output cast is the input tensor in
every branch (the cast itself happens in backward). -/
theorem cast_y_forward_id (l : Float8Linear) (y : Tensor) :
    l.cast_y_to_float8_in_bw y = y := by
  cases hg : l.scaling_type_grad_output <;>
    cases hbuf : l.buffers <;>
      simp [Float8Linear.cast_y_to_float8_in_bw, hg, hbuf,
        NoopFwToFloat8E5M2Bw.forward]

/-- `cast_x_to_float8` succeeds on a layer whose input scale buffer is a
single element, touching only the input-role buffers and producing a
tensor tagged `INPUT` with the layer's config. -/
theorem cast_x_ok (l : Float8Linear) (x : Tensor) (init : Bool)
    (host : HostCtx) (b : LayerBuffers) (hb : l.buffers = some b)
    (h1 : b.fp8_scale_input.numel = 1) :
    ∃ l' x_fp8,
      l.cast_x_to_float8 x init host = Except.ok (l', x_fp8) ∧
      l'.weight = l.weight ∧
      l'.bias = l.bias ∧
      l'.scaling_type_weight = l.scaling_type_weight ∧
      l'.scaling_type_grad_output = l.scaling_type_grad_output ∧
      l'.has_any_delayed_scaling = l.has_any_delayed_scaling ∧
      l'.config = l.config ∧
      l'.linear_mm_config = l.linear_mm_config ∧
      l'.is_amax_initialized = l.is_amax_initialized ∧
      l'.amax_and_scale_synced = l.amax_and_scale_synced ∧
      l'.enable_pre_and_post_forward = l.enable_pre_and_post_forward ∧
      (∃ b', l'.buffers = some b' ∧ b'.fp8_scale_input.numel = 1 ∧
        b'.fp8_scale_weight = b.fp8_scale_weight) ∧
      x_fp8._gemm_input_role = GemmInputRole.INPUT ∧
      x_fp8._linear_mm_config = l.linear_mm_config := by
  cases hsx : l.scaling_type_input with
  | DELAYED =>
    have hs := maybe_initialize_scale_numel
      (match host.autocast_gpu_dtype with
        | some d => x.toDtype d
        | none => x)
      ⟨b.fp8_amax_input, b.fp8_amax_history_input, b.fp8_scale_input⟩
      l.config.scale_fn_name e4m3_dtype init true
    rw [h1] at hs
    unfold Float8Linear.cast_x_to_float8
    simp only [hsx, hb, to_float8_ok _ _ _ _ _ _ hs]
    exact ⟨_, _, rfl, rfl, rfl, rfl, rfl, rfl, rfl, rfl, rfl, rfl, rfl,
      ⟨_, rfl, by simpa using hs, rfl⟩, rfl, rfl⟩
  | DYNAMIC =>
    unfold Float8Linear.cast_x_to_float8
    simp only [hsx, cast_dynamic_ok]
    exact ⟨l, _, rfl, rfl, rfl, rfl, rfl, rfl, rfl, rfl, rfl, rfl, rfl,
      ⟨b, hb, h1, rfl⟩, rfl, rfl⟩

/-- `cast_w_to_float8` succeeds on a layer whose weight is a
high-precision tensor and whose weight scale buffer is a single element,
touching only the weight-role buffers and producing a tensor tagged
`WEIGHT` with the layer's config. -/
theorem cast_w_ok (l : Float8Linear) (init : Bool) (w0 : Tensor)
    (hw : l.weight = Sum.inl w0) (b : LayerBuffers) (hb : l.buffers = some b)
    (h2 : b.fp8_scale_weight.numel = 1) :
    ∃ l' w_fp8,
      l.cast_w_to_float8 l.weight init = Except.ok (l', w_fp8) ∧
      l'.weight = l.weight ∧
      l'.bias = l.bias ∧
      l'.scaling_type_grad_output = l.scaling_type_grad_output ∧
      l'.has_any_delayed_scaling = l.has_any_delayed_scaling ∧
      l'.config = l.config ∧
      l'.linear_mm_config = l.linear_mm_config ∧
      l'.is_amax_initialized = l.is_amax_initialized ∧
      l'.amax_and_scale_synced = l.amax_and_scale_synced ∧
      l'.enable_pre_and_post_forward = l.enable_pre_and_post_forward ∧
      (∃ b', l'.buffers = some b' ∧ b'.fp8_scale_input = b.fp8_scale_input ∧
        b'.fp8_scale_weight.numel = 1) ∧
      w_fp8._gemm_input_role = GemmInputRole.WEIGHT ∧
      w_fp8._linear_mm_config = l.linear_mm_config := by
  cases hsw : l.scaling_type_weight with
  | DELAYED =>
    have hs := maybe_initialize_scale_numel w0
      ⟨b.fp8_amax_weight, b.fp8_amax_history_weight, b.fp8_scale_weight⟩
      l.config.scale_fn_name e4m3_dtype init false
    rw [h2] at hs
    unfold Float8Linear.cast_w_to_float8
    simp only [hsw, hw, hb, to_float8_ok _ _ _ _ _ _ hs]
    exact ⟨_, _, rfl, rfl, rfl, rfl, rfl, rfl, rfl, rfl, rfl, rfl,
      ⟨_, rfl, rfl, by simpa using hs⟩, rfl, rfl⟩
  | DYNAMIC =>
    unfold Float8Linear.cast_w_to_float8
    simp only [hsw, hw, cast_dynamic_ok]
    exact ⟨l, _, rfl, hw, rfl, rfl, rfl, rfl, rfl, rfl, rfl, rfl,
      ⟨b, hb, rfl, h2⟩, rfl, rfl⟩

/-- Reduction of `bind` on an `Except.ok` value. -/
theorem bind_ok_eq {ε α β : Type} (a : α) (f : α → Except ε β) :
    (Except.ok a >>= f : Except ε β) = f a := rfl

/-- Well-formedness of a `Float8Linear` as produced by construction with
delayed scaling on some role and a high-precision weight: hooks enabled,
the delayed-scaling flag set, and the buffers present with single-element
scale buffers. -/
def LayerWF (l : Float8Linear) : Prop :=
  l.enable_pre_and_post_forward = true ∧
  l.has_any_delayed_scaling = true ∧
  (∃ w0, l.weight = Sum.inl w0) ∧
  (∃ b, l.buffers = some b ∧ b.fp8_scale_input.numel = 1 ∧
    b.fp8_scale_weight.numel = 1)

/-- A forward pass on a well-formed layer whose pre-forward contract is
satisfied succeeds, and leaves the layer initialized, unsynced and still
well-formed. -/
theorem forward_ok (mm : Tensor → Tensor → Tensor) (host : HostCtx)
    (l : Float8Linear) (input : Tensor) (hwf : LayerWF l)
    (hpre : l.is_amax_initialized = false ∨ l.amax_and_scale_synced = true ∨
      host.grad_enabled = false) :
    ∃ l' y, Float8Linear.forward mm host l input = Except.ok (l', y) ∧
      l'.is_amax_initialized = true ∧ l'.amax_and_scale_synced = false ∧
      LayerWF l' := by
  obtain ⟨hen, hda, ⟨w0, hw⟩, b, hb, h1, h2⟩ := hwf
  have hprei : l.float8_pre_forward input host =
      Except.ok { l with last_seen_input_dtype := some input.dtype } := by
    unfold Float8Linear.float8_pre_forward
    rcases hpre with h | h | h <;> simp [hen, h]
  obtain ⟨l2, xf8, hcx, hxw, hxb, hxsw, hxsg, hxhas, hxcfg, hxlmc, hxinit,
      hxsync, hxen, ⟨b1, hb1, hb1i, hb1w⟩, hxrole, hxconf⟩ :=
    cast_x_ok { l with last_seen_input_dtype := some input.dtype } input
      l.is_amax_initialized host b hb h1
  have hw2 : l2.weight = Sum.inl w0 := by rw [hxw]; exact hw
  have h2' : b1.fp8_scale_weight.numel = 1 := by rw [hb1w]; exact h2
  obtain ⟨l3, wf8, hcw, hww, hwb, hwsg, hwhas, hwcfg, hwlmc, hwinit,
      hwsync, hwen, ⟨b2, hb2, hb2i, hb2w⟩, hwrole, hwconf⟩ :=
    cast_w_ok l2 l2.is_amax_initialized w0 hw2 b1 hb1 h2'
  have hmm : float8_mm mm xf8 wf8.t =
      Except.ok (mm xf8.to_original_precision wf8.to_original_precision) := by
    unfold float8_mm Float8Tensor.t
    rw [hxrole, hwrole, hxconf, hwconf, hxlmc, choose_same_input_weight]
  have hhas3 : l3.has_any_delayed_scaling = true := hwhas.trans (hxhas.trans hda)
  have hen3 : l3.enable_pre_and_post_forward = true := hwen.trans (hxen.trans hen)
  unfold Float8Linear.forward
  rw [hda]
  simp only [reduceIte]
  rw [hprei]
  simp only [bind_ok_eq]
  rw [hcx]
  simp only [bind_ok_eq]
  rw [hcw]
  simp only [bind_ok_eq]
  rw [hmm]
  simp only [bind_ok_eq]
  rw [hhas3]
  simp only [reduceIte]
  unfold Float8Linear.float8_post_forward
  rw [hen3]
  simp only [Bool.not_true, Bool.false_eq_true, if_false, reduceIte]
  refine ⟨_, _, rfl, rfl, rfl, ?_, ?_, ⟨w0, ?_⟩, b2, ?_, ?_, hb2w⟩
  · rfl
  · simpa using hhas3
  · simpa using hww.trans hw2
  · simpa using hb2
  · rw [hb2i]; exact hb1i

/-- Reduction of `bind` on an `Except.error` value. -/
theorem bind_error_eq {ε α β : Type} (e : ε) (f : α → Except ε β) :
    (Except.error e >>= f : Except ε β) = Except.error e := rfl

/-- A forward pass on a delayed-scaling layer with hooks enabled that is
initialized but not synced fails, under gradient tracking, with the
diagnostic naming the missing sync step. -/
theorem forward_sync_error (mm : Tensor → Tensor → Tensor) (host : HostCtx)
    (l : Float8Linear) (input : Tensor)
    (hda : l.has_any_delayed_scaling = true)
    (hen : l.enable_pre_and_post_forward = true)
    (hinit : l.is_amax_initialized = true)
    (hsync : l.amax_and_scale_synced = false)
    (hgrad : host.grad_enabled = true) :
    Float8Linear.forward mm host l input = Except.error
      "amaxes and scales not synced, please call sync_float8_amax_and_scale_history before forward" := by
  unfold Float8Linear.forward Float8Linear.float8_pre_forward
  rw [hda]
  simp only [reduceIte]
  rw [hen, hinit, hsync, hgrad]
  simp only [Bool.not_true, Bool.false_eq_true, if_false, reduceIte,
    not_false_eq_true, and_self, if_true, bind_error_eq]

/-- C2 (amended): for every `Float8Linear` constructed with delayed
scaling on at least one role and the pre/post-forward hooks enabled:
a forward pass under gradient tracking succeeds and leaves the
initialization flag true and the synced flag false; a second forward with
no intervening sync fails with the diagnostic naming
`sync_float8_amax_and_scale_history`; and resetting the synced flag
between the calls makes the second succeed, again leaving the flags set
and cleared. -/
theorem float8Linear_forward_sequencing (config : Float8LinearConfig)
    (w : Tensor) (bias : Option Tensor) (input input2 : Tensor)
    (mm : Tensor → Tensor → Tensor) (host : HostCtx)
    (hen : config.enable_pre_and_post_forward = true)
    (hdel : config.scaling_type_input = TensorScalingType.DELAYED
      ∨ config.scaling_type_weight = TensorScalingType.DELAYED
      ∨ config.scaling_type_grad_output = TensorScalingType.DELAYED)
    (hgrad : host.grad_enabled = true) :
    ∃ l1 y1, Float8Linear.forward mm host
        (Float8Linear.init config (Sum.inl w) bias) input =
      Except.ok (l1, y1) ∧
      l1.is_amax_initialized = true ∧ l1.amax_and_scale_synced = false ∧
      Float8Linear.forward mm host l1 input2 = Except.error
        "amaxes and scales not synced, please call sync_float8_amax_and_scale_history before forward" ∧
      ∃ l2 y2, Float8Linear.forward mm host
          { l1 with amax_and_scale_synced := true } input2 =
        Except.ok (l2, y2) ∧
        l2.is_amax_initialized = true ∧ l2.amax_and_scale_synced = false := by
  have hdec : decide (config.scaling_type_input = TensorScalingType.DELAYED
      ∨ config.scaling_type_weight = TensorScalingType.DELAYED
      ∨ config.scaling_type_grad_output = TensorScalingType.DELAYED) = true :=
    decide_eq_true hdel
  have hwf0 : LayerWF (Float8Linear.init config (Sum.inl w) bias) := by
    refine ⟨hen, ?_, ⟨w, rfl⟩, ?_⟩
    · show decide _ = true
      exact hdec
    · refine ⟨⟨⟨[finfo_max Dtype.float8_e4m3fn], Dtype.float32⟩,
        ⟨List.replicate config.history_len 0, Dtype.float32⟩,
        ⟨[1], Dtype.float32⟩,
        ⟨[finfo_max Dtype.float8_e4m3fn], Dtype.float32⟩,
        ⟨List.replicate config.history_len 0, Dtype.float32⟩,
        ⟨[1], Dtype.float32⟩,
        ⟨[finfo_max Dtype.float8_e5m2], Dtype.float32⟩,
        ⟨List.replicate config.history_len 0, Dtype.float32⟩,
        ⟨[1], Dtype.float32⟩⟩, ?_, rfl, rfl⟩
      show create_buffers config _ = some _
      unfold create_buffers
      rw [hdec]
      simp only [reduceIte]
  have hpre0 : (Float8Linear.init config (Sum.inl w) bias).is_amax_initialized
        = false ∨
      (Float8Linear.init config (Sum.inl w) bias).amax_and_scale_synced = true ∨
      host.grad_enabled = false := by
    cases hai : config.enable_amax_init with
    | true =>
      left
      show (!config.enable_amax_init) = false
      rw [hai]
      rfl
    | false =>
      right
      left
      show (!config.enable_amax_init) = true
      rw [hai]
      rfl
  obtain ⟨l1, y1, hfwd1, hinit1, hsync1, hwf1⟩ :=
    forward_ok mm host (Float8Linear.init config (Sum.inl w) bias) input
      hwf0 hpre0
  refine ⟨l1, y1, hfwd1, hinit1, hsync1, ?_, ?_⟩
  · exact forward_sync_error mm host l1 input2 hwf1.2.1 hwf1.1 hinit1 hsync1
      hgrad
  · have hwf1' : LayerWF { l1 with amax_and_scale_synced := true } :=
      ⟨hwf1.1, hwf1.2.1, hwf1.2.2.1, hwf1.2.2.2⟩
    obtain ⟨l2, y2, hfwd2, hinit2, hsync2, _⟩ :=
      forward_ok mm host { l1 with amax_and_scale_synced := true } input2
        hwf1' (Or.inr (Or.inl rfl))
    exact ⟨l2, y2, hfwd2, hinit2, hsync2⟩

/-- A concrete external gemm kernel used for closed instances: returns its
first operand. -/
def mm_fst (a b : Tensor) : Tensor := a

/-- A concrete host context: gradient tracking active, autocast off. -/
def host_grad : HostCtx := ⟨true, none⟩

/-- Closed witness for `float8Linear_forward_sequencing`: a layer with
delayed input scaling, the default config otherwise, and concrete
inputs. -/
theorem float8Linear_forward_sequencing_witness :
    ∃ l1 y1, Float8Linear.forward mm_fst host_grad
        (Float8Linear.init { scaling_type_input := TensorScalingType.DELAYED }
          (Sum.inl ⟨[1], Dtype.float32⟩) none) ⟨[1], Dtype.float32⟩ =
      Except.ok (l1, y1) ∧
      l1.is_amax_initialized = true ∧ l1.amax_and_scale_synced = false ∧
      Float8Linear.forward mm_fst host_grad l1 ⟨[2], Dtype.float32⟩ =
        Except.error
          "amaxes and scales not synced, please call sync_float8_amax_and_scale_history before forward" ∧
      ∃ l2 y2, Float8Linear.forward mm_fst host_grad
          { l1 with amax_and_scale_synced := true } ⟨[2], Dtype.float32⟩ =
        Except.ok (l2, y2) ∧
        l2.is_amax_initialized = true ∧ l2.amax_and_scale_synced = false :=
  float8Linear_forward_sequencing
    { scaling_type_input := TensorScalingType.DELAYED }
    ⟨[1], Dtype.float32⟩ none ⟨[1], Dtype.float32⟩ ⟨[2], Dtype.float32⟩
    mm_fst host_grad rfl (Or.inl rfl) rfl

/-- The counterexample configuration: delayed scaling on the input role
but the pre/post-forward hooks disabled. -/
def cex_config : Float8LinearConfig :=
  { scaling_type_input := TensorScalingType.DELAYED,
    enable_amax_init := true,
    enable_pre_and_post_forward := false }

/-- The counterexample layer built from `cex_config`. -/
def cex_layer : Float8Linear :=
  Float8Linear.init cex_config (Sum.inl ⟨[1], Dtype.float32⟩) none

/-- First forward pass of the counterexample run. -/
def cex_run1 : Except String (Float8Linear × Tensor) :=
  Float8Linear.forward mm_fst host_grad cex_layer ⟨[1], Dtype.float32⟩

/-- Second forward pass of the counterexample run, with no sync between
the calls. -/
def cex_run2 : Except String (Float8Linear × Tensor) :=
  cex_run1 >>= fun p =>
    Float8Linear.forward mm_fst host_grad p.1 ⟨[1], Dtype.float32⟩

/-- Projection of a forward result onto the layer's initialization flag. -/
def run_is_amax_initialized (r : Except String (Float8Linear × Tensor)) :
    Except String Bool :=
  r.map (fun p => p.1.is_amax_initialized)

/-- Counterexample to C2 as stated: `cex_layer` has delayed scaling active
on the input role, yet with the pre/post-forward hooks disabled
(`enable_pre_and_post_forward = false`, a configuration the claim does not
exclude) two consecutive forward passes under gradient tracking with no
intervening sync both succeed — the second call does not raise — and the
layer's initialization flag is still false after each forward rather than
true. -/
theorem float8Linear_forward_sequencing_counterexample :
    cex_layer.has_any_delayed_scaling = true ∧
    run_is_amax_initialized cex_run1 = Except.ok false ∧
    run_is_amax_initialized cex_run2 = Except.ok false := by
  refine ⟨rfl, ?_, ?_⟩ <;> rfl
